import Mathlib

/-!
Shallow embedding of the authorization-and-floor-control subsystem of the
jitsi-meet fork: the meeting-mode redux reducer and middleware
(react/features/meeting-mode/reducer.ts and middleware.ts) and the prosody
role-guard plugin (resources/prosody-plugins/mod_muc_allowners.lua).

Timestamps are modelled as natural numbers (milliseconds).  The JavaScript
expression `now - lastUnmuteTime < 2000` is modelled with truncated natural
subtraction: whenever `lastUnmuteTime <= now` the two agree, and when
`lastUnmuteTime > now` the JavaScript difference is negative, hence below the
positive threshold, and the truncated difference is 0, also below the
threshold, so the boolean values agree for every pair of inputs.

`Date.now()` calls made while one redux action is processed are modelled by a
single `now` value threaded through the step function.
-/

namespace Jitsi

/-! ### Meeting-mode redux state (reducer.ts, INITIAL_STATE) -/

/-- The `features/meeting-mode` slice of the redux state, from the
reducer module: `enabled`, `timestamp`, `currentSpeaker`, `lastUnmuteTime`. -/
structure MeetingModeState where
  enabled : Bool
  timestamp : Nat
  currentSpeaker : Option String
  lastUnmuteTime : Nat
deriving Repr, DecidableEq

/-- INITIAL_STATE of the meeting-mode reducer. -/
def initialMeetingModeState : MeetingModeState :=
  { enabled := false, timestamp := 0, currentSpeaker := none, lastUnmuteTime := 0 }

/-- Redux actions relevant to the meeting-mode feature.  `toggleMeetingMode`
carries an optional `enabled` (the action creator dispatches it as
`undefined`, modelled by `none`) and a timestamp (`0` models a falsy
timestamp, since `action.timestamp || Date.now()` treats `0` and `undefined`
alike).  `participantLeft` models the PARTICIPANT_LEFT action type of the
base participants feature, which neither the meeting-mode middleware switch
nor the meeting-mode reducer has a case for. -/
inductive MMAction where
  | toggleMeetingMode (enabled : Option Bool) (timestamp : Nat)
  | updateMeetingMode (enabled : Bool) (timestamp : Nat)
  | setCurrentSpeaker (speakerId : Option String)
  | setAudioMuted (muted : Bool)
  | trackUpdated (participantId : String) (isAudio isLocalTrack muted : Bool)
  | participantLeft (id : String)
deriving Repr, DecidableEq

/-- The meeting-mode reducer (reducer.ts).  The default branch of the
source switch returns the state unchanged. -/
def meetingModeReducer (now : Nat) (s : MeetingModeState) : MMAction → MeetingModeState
  | .toggleMeetingMode enabled timestamp =>
      let newEnabled := enabled.getD (!s.enabled)
      { s with
        enabled := newEnabled
        timestamp := if newEnabled then (if timestamp = 0 then now else timestamp) else 0
        currentSpeaker := if newEnabled then none else s.currentSpeaker }
  | .updateMeetingMode enabled timestamp =>
      { s with
        enabled := enabled
        timestamp := timestamp
        currentSpeaker := if enabled then none else s.currentSpeaker }
  | .setCurrentSpeaker speakerId =>
      { s with
        currentSpeaker := speakerId
        lastUnmuteTime := if speakerId.isSome then now else 0 }
  | _ => s

/-! ### Middleware context (middleware.ts) -/

/-- A remote participant as observed by the local peer: track mute state,
audio-moderation approval, raised-hand timestamp, and whether its
authorization claim equals the sentinel value (meetingRole == ADMIN).  The
claim field exists in the data model; the middleware cannot read it for
remote participants (the localStorage check is local-only). -/
structure RemoteParticipant where
  id : String
  audioMuted : Bool
  approvedAudio : Bool
  raisedHandTimestamp : Nat
  hasAdminClaim : Bool
deriving Repr, DecidableEq

/-- The snapshot of everything the middleware reads from the store and the
environment while processing one action: the local participant, the remote
participants, the localStorage meetingRole check, the audio-moderation
approval of the local participant, the clock, and whether a conference
object is present. -/
structure MwContext where
  localId : String
  localAudioMuted : Bool
  localIsAdmin : Bool
  localIsModerator : Bool
  localApprovedAudio : Bool
  localRaisedHandTimestamp : Nat
  remotes : List RemoteParticipant
  now : Nat
  hasConference : Bool
deriving Repr, DecidableEq

/-- Commands the middleware dispatches to collaborators (transport, the
moderation service, the notification sink, the conference property channel);
`muteAllExcept` is the muteAllParticipantsIncludingLocal thunk with its
exclusion list, `setLocalAudioMuted true` is the force-mute-back dispatch,
`muteRemote` is the remote-mute command, `notify` carries the i18n key of
the notification, `warnNonAdminToggle` is the console warning in the
non-ADMIN toggle branch. -/
inductive Effect where
  | muteAllExcept (excludeIds : List String)
  | notify (key : String)
  | setLocalAudioMuted (muted : Bool)
  | muteRemote (id : String)
  | enableAudioModeration
  | disableAudioModeration
  | localParticipantUpdated (enabled : Bool) (timestamp : Nat)
  | setLocalProperty (enabled : Bool) (timestamp : Nat)
  | warnNonAdminToggle
deriving Repr, DecidableEq

/-- isAnyoneElseSpeaking from middleware.ts: true when the local participant
or any remote participant other than `excludeId` has an unmuted audio
track. -/
def isAnyoneElseSpeaking (ctx : MwContext) (excludeId : String) : Bool :=
  (ctx.localId != excludeId && !ctx.localAudioMuted)
    || ctx.remotes.any (fun r => r.id != excludeId && !r.audioMuted)

/-- getParticipantById restricted to the remote participants list. -/
def findRemote (ctx : MwContext) (id : String) : Option RemoteParticipant :=
  ctx.remotes.find? (fun r => r.id == id)

/-! ### Middleware case SET_AUDIO_MUTED (middleware.ts lines 226-390) -/

/-- The SET_AUDIO_MUTED case of the meeting-mode middleware.  Returns the
meeting-mode state after the action is fully processed (dispatched
SET_CURRENT_SPEAKER actions are applied through the reducer) together with
the list of commands issued, in dispatch order. -/
def handleSetAudioMuted (ctx : MwContext) (s : MeetingModeState) (muted : Bool) :
    MeetingModeState × List Effect :=
  if !s.enabled then (s, [])
  else if muted then
    (if s.currentSpeaker = some ctx.localId then
       meetingModeReducer ctx.now s (.setCurrentSpeaker none)
     else s, [])
  else
    let someoneElse := isAnyoneElseSpeaking ctx ctx.localId
    if !ctx.localIsAdmin && someoneElse && decide (ctx.now - s.lastUnmuteTime < 2000) then
      (s, [.notify "unmuteCooldown", .setLocalAudioMuted true])
    else if ctx.localIsAdmin then
      (meetingModeReducer ctx.now s (.setCurrentSpeaker (some ctx.localId)),
       [.muteAllExcept [ctx.localId], .notify "singleSpeakerMode"])
    else
      let currentSpeakerIsOther :=
        match s.currentSpeaker with
        | some cs => cs != ctx.localId
        | none => false
      if currentSpeakerIsOther && someoneElse then
        (s, [.notify "someoneElseSpeaking", .setLocalAudioMuted true])
      else if !currentSpeakerIsOther && someoneElse then
        (s, [.notify "someoneElseSpeaking", .setLocalAudioMuted true])
      else if !ctx.localApprovedAudio && !(decide (ctx.localRaisedHandTimestamp > 0)) then
        (s, [.notify "raiseHandToUnmute", .setLocalAudioMuted true])
      else
        (meetingModeReducer ctx.now s (.setCurrentSpeaker (some ctx.localId)),
         [.muteAllExcept [ctx.localId], .notify "singleSpeakerMode"])

/-! ### Middleware case TRACK_UPDATED (middleware.ts lines 392-498) -/

/-- The TRACK_UPDATED case of the meeting-mode middleware, for a track of a
remote participant.  Non-audio tracks and local tracks fall through
unchanged.  Note the source applies the approval/raised-hand gate first for
remote tracks, then the cooldown, then the floor-occupancy checks; all three
rejection paths dispatch the same single remote-mute command.  No branch of
this case reads the `hasAdminClaim` field of a remote participant. -/
def handleTrackUpdated (ctx : MwContext) (s : MeetingModeState)
    (participantId : String) (isAudio isLocalTrack isNowMuted : Bool) :
    MeetingModeState × List Effect :=
  if !s.enabled then (s, [])
  else if !isAudio then (s, [])
  else if isLocalTrack then (s, [])
  else if isNowMuted then
    if s.currentSpeaker = some participantId then
      (meetingModeReducer ctx.now s (.setCurrentSpeaker none), [])
    else (s, [])
  else
    let p := findRemote ctx participantId
    let hasRaisedHand := (p.map (fun r => decide (r.raisedHandTimestamp > 0))).getD false
    let isApproved := (p.map (fun r => r.approvedAudio)).getD false
    if !isApproved && !hasRaisedHand then
      (s, [.muteRemote participantId])
    else
      let someoneElse := isAnyoneElseSpeaking ctx participantId
      if someoneElse && decide (ctx.now - s.lastUnmuteTime < 2000) then
        (s, [.muteRemote participantId])
      else
        let currentSpeakerIsOther :=
          match s.currentSpeaker with
          | some cs => cs != participantId
          | none => false
        if currentSpeakerIsOther && someoneElse then
          (s, [.muteRemote participantId])
        else if !currentSpeakerIsOther && someoneElse then
          (s, [.muteRemote participantId])
        else
          (meetingModeReducer ctx.now s (.setCurrentSpeaker (some participantId)),
           [.muteAllExcept [participantId], .notify "singleSpeakerMode"])

/-! ### Middleware case TOGGLE_MEETING_MODE (middleware.ts lines 105-186) -/

/-- The TOGGLE_MEETING_MODE case.  When the local participant is not ADMIN
the source logs a warning and still calls `next(action)` with the original
action, so the reducer runs on it.  When ADMIN, the local participant
property is updated and broadcast, mute-all plus audio moderation are issued
on enable, the current speaker is cleared and moderation disabled on
disable, a notification is shown, and the reducer receives the rewritten
action carrying the computed `enabled` and `timestamp`. -/
def handleToggleMeetingMode (ctx : MwContext) (s : MeetingModeState)
    (actionEnabled : Option Bool) (actionTimestamp : Nat) :
    MeetingModeState × List Effect :=
  if !ctx.localIsAdmin then
    (meetingModeReducer ctx.now s (.toggleMeetingMode actionEnabled actionTimestamp),
     [.warnNonAdminToggle])
  else
    let newEnabled := !s.enabled
    let timestamp := if newEnabled then ctx.now else 0
    let conferenceEffects :=
      if ctx.hasConference then
        [Effect.setLocalProperty newEnabled timestamp]
          ++ (if newEnabled then [Effect.muteAllExcept [], Effect.enableAudioModeration]
              else [Effect.disableAudioModeration])
          ++ [Effect.notify (if newEnabled then "meetingModeEnabledBy" else "meetingModeDisabledBy")]
      else []
    let s1 := if ctx.hasConference && !newEnabled then
                meetingModeReducer ctx.now s (.setCurrentSpeaker none)
              else s
    (meetingModeReducer ctx.now s1 (.toggleMeetingMode (some newEnabled) timestamp),
     Effect.localParticipantUpdated newEnabled timestamp :: conferenceEffects)

/-- The UPDATE_MEETING_MODE case (middleware.ts lines 188-224): the reducer
runs first (`next(action)` on line 189), then mute-all and moderation are
issued on enable, or the speaker is cleared and moderation disabled on
disable. -/
def handleUpdateMeetingMode (ctx : MwContext) (s : MeetingModeState)
    (enabled : Bool) (timestamp : Nat) : MeetingModeState × List Effect :=
  let s1 := meetingModeReducer ctx.now s (.updateMeetingMode enabled timestamp)
  if enabled then
    (s1, [.muteAllExcept [], .enableAudioModeration, .notify "meetingModeEnabled"])
  else
    (meetingModeReducer ctx.now s1 (.setCurrentSpeaker none),
     [.disableAudioModeration, .notify "meetingModeDisabled"])

/-- One step of the meeting-mode middleware followed by the meeting-mode
reducer, as a pure function of (context snapshot, state, action).  Actions
with no middleware case fall through to `next(action)`; of those only
SET_CURRENT_SPEAKER has a reducer case, everything else (in particular
`participantLeft`) hits the default branch of the reducer. -/
def middlewareStep (ctx : MwContext) (s : MeetingModeState) :
    MMAction → MeetingModeState × List Effect
  | .toggleMeetingMode e t => handleToggleMeetingMode ctx s e t
  | .updateMeetingMode e t => handleUpdateMeetingMode ctx s e t
  | .setAudioMuted m => handleSetAudioMuted ctx s m
  | .trackUpdated pid au loc m => handleTrackUpdated ctx s pid au loc m
  | a => (meetingModeReducer ctx.now s a, [])

/-! ### Role authorization guard (mod_muc_allowners.lua) -/

/-- MUC occupant roles. -/
inductive MucRole where
  | moderator
  | participant
  | visitor
  | noRole
deriving Repr, DecidableEq

/-- MUC affiliations. -/
inductive MucAffiliation where
  | owner
  | member
  | noAffiliation
  | outcast
deriving Repr, DecidableEq

/-- jitsi_meet_context_user of a session, carrying the meetingRole claim. -/
structure UserContext where
  meetingRole : Option String
deriving Repr, DecidableEq

/-- A prosody session: the auth token, the user context resolved from it,
and the room/domain fields used by the moderated-room matching. -/
structure LuaSession where
  authToken : Option String
  userContext : Option UserContext
  jitsiMeetRoom : Option String
  jitsiMeetDomain : Option String
deriving Repr, DecidableEq

/-- The meetingRole resolved from a session, `none` when the session has no
user context or the context has no meetingRole. -/
def sessionMeetingRole (s : LuaSession) : Option String :=
  s.userContext.bind (fun u => u.meetingRole)

/-- A MUC occupant: bare jid, nick, current role, whether the jid is a
prosody server admin (util.is_admin), and the `_block_moderator_promotion`
marker the pre-join hook sets. -/
structure Occupant where
  bareJid : String
  nick : String
  role : MucRole
  isServerAdmin : Bool
  blockModeratorPromotion : Bool
deriving Repr, DecidableEq

/-- Room configuration facts consulted by the hooks: healthcheck flag and
the is_moderated result (moderated flag, room name, subdomain). -/
structure RoomCfg where
  isHealthcheck : Bool
  moderated : Bool
  roomName : String
  subdomain : Option String
deriving Repr, DecidableEq

/-- The room affiliation table, as a total map from bare jid. -/
structure RoomState where
  affiliations : String → MucAffiliation

/-- room:get_affiliation. -/
def getAffiliation (r : RoomState) (jid : String) : MucAffiliation :=
  r.affiliations jid

/-- room:set_affiliation. -/
def setAffiliation (r : RoomState) (jid : String) (aff : MucAffiliation) : RoomState :=
  ⟨fun j => if j = jid then aff else r.affiliations j⟩

/-- The structured log entries the plugin writes at its decision points. -/
inductive LogEntry where
  | skipNoToken
  | skipRoomMismatch
  | skipDomainMismatch
  | skipNotAdmin
  | promoting
  | blockedJoined
  | confirmedPromote
  | allowedJoined
  | blockedPresence
  | interceptedAff
  | blockedAff
  | allowedAff
  | blockedAffNoSession
  | interceptedRole
  | blockedRole
  | allowedRole
  | blockedRoleNoSession
deriving Repr, DecidableEq

/-- Result of the muc-occupant-pre-join hook. -/
structure PreJoinResult where
  occupant : Occupant
  joining : List String
  logs : List LogEntry
deriving Repr, DecidableEq

/-- The muc-occupant-pre-join hook (priority 50): without a token it marks
the occupant with `_block_moderator_promotion`; on a moderated room with a
mismatching name or subdomain it skips; with a meetingRole other than ADMIN
it marks the occupant; only with meetingRole ADMIN does it record the bare
jid in joining_moderator_participants. -/
def mucOccupantPreJoin (cfg : RoomCfg) (session : LuaSession) (occ : Occupant)
    (joining : List String) : PreJoinResult :=
  if cfg.isHealthcheck || occ.isServerAdmin then ⟨occ, joining, []⟩
  else if session.authToken = none then
    ⟨{ occ with blockModeratorPromotion := true }, joining, [.skipNoToken]⟩
  else if cfg.moderated
      && !(session.jitsiMeetRoom = some cfg.roomName || session.jitsiMeetRoom = some "*") then
    ⟨occ, joining, [.skipRoomMismatch]⟩
  else if cfg.moderated
      && !(session.jitsiMeetDomain = some "*") && !(cfg.subdomain = session.jitsiMeetDomain) then
    ⟨occ, joining, [.skipDomainMismatch]⟩
  else if !(sessionMeetingRole session = some "ADMIN") then
    ⟨{ occ with blockModeratorPromotion := true }, joining, [.skipNotAdmin]⟩
  else
    ⟨occ, occ.bareJid :: joining, [.promoting]⟩

/-- Whether an occupant is elevated: role moderator or affiliation owner,
the condition the joined hook re-checks. -/
def isElevated (room : RoomState) (occ : Occupant) : Bool :=
  occ.role = MucRole.moderator || getAffiliation room occ.bareJid = MucAffiliation.owner

/-- set_affiliation none plus set_role participant, the demotion the joined
hook applies to an unauthorized elevated occupant. -/
def demote (room : RoomState) (occ : Occupant) : RoomState × Occupant :=
  (setAffiliation room occ.bareJid MucAffiliation.noAffiliation,
   { occ with role := MucRole.participant })

/-- Result of the muc-occupant-joined hook. -/
structure JoinedResult where
  room : RoomState
  occupant : Occupant
  joining : List String
  logs : List LogEntry

/-- The muc-occupant-joined hook (priority 25): demotes a blocked-flagged
occupant that arrives elevated, consumes the joining list entry, promotes to
owner only after re-checking meetingRole ADMIN, and demotes any occupant
found elevated without the ADMIN claim. -/
def mucOccupantJoined (cfg : RoomCfg) (session : LuaSession) (room : RoomState)
    (occ : Occupant) (joining : List String) : JoinedResult :=
  if occ.isServerAdmin || cfg.isHealthcheck then ⟨room, occ, joining, []⟩
  else
    let flagStep : RoomState × Occupant × List LogEntry :=
      if occ.blockModeratorPromotion then
        if isElevated room occ then
          let d := demote room occ
          (d.1, { d.2 with blockModeratorPromotion := false }, [.blockedJoined])
        else (room, { occ with blockModeratorPromotion := false }, [])
      else (room, occ, [])
    let room1 := flagStep.1
    let occ1 := flagStep.2.1
    let logs1 := flagStep.2.2
    let inList := decide (occ.bareJid ∈ joining)
    let joining2 := joining.filter (fun j => j ≠ occ.bareJid)
    if inList then
      if sessionMeetingRole session = some "ADMIN" then
        ⟨setAffiliation room1 occ1.bareJid MucAffiliation.owner, occ1, joining2,
         logs1 ++ [.confirmedPromote]⟩
      else
        if isElevated room1 occ1 then
          let d := demote room1 occ1
          ⟨d.1, d.2, joining2, logs1 ++ [.blockedJoined]⟩
        else ⟨room1, occ1, joining2, logs1 ++ [.blockedJoined]⟩
    else
      if isElevated room1 occ1 then
        if !(sessionMeetingRole session = some "ADMIN") then
          let d := demote room1 occ1
          ⟨d.1, d.2, joining2, logs1 ++ [.blockedJoined]⟩
        else ⟨room1, occ1, joining2, logs1 ++ [.allowedJoined]⟩
      else ⟨room1, occ1, joining2, logs1⟩

/-- The role and affiliation attributes of the item element inside a
presence stanza about to be broadcast. -/
structure PresenceItem where
  role : String
  affiliation : String
deriving Repr, DecidableEq

/-- The muc-broadcast-presence hook (priority 10): when the presence item
advertises role moderator or affiliation owner and the meetingRole resolved
from the full session of the occupant is not ADMIN (or there is no
session), it rewrites the item to role participant, affiliation none. -/
def mucBroadcastPresence (occIsServerAdmin isHealthcheck : Bool)
    (session : Option LuaSession) (item : Option PresenceItem) :
    Option PresenceItem × List LogEntry :=
  if occIsServerAdmin || isHealthcheck then (item, [])
  else
    match item with
    | none => (none, [])
    | some it =>
      if it.role = "moderator" || it.affiliation = "owner" then
        let mr := session.bind sessionMeetingRole
        if !(mr = some "ADMIN") then
          (some { role := "participant", affiliation := "none" }, [.blockedPresence])
        else (some it, [])
      else (some it, [])

/-- The muc-pre-set-affiliation hook (priority -50).  Only owner requests
are checked.  When the target occupant is found in the room, the occupant
session must resolve meetingRole ADMIN or the requested affiliation is
cleared (`event.affiliation = nil`), and a missing session also clears it.
When the target occupant is not in the room, the hook falls back to the
actor session: a non-ADMIN actor session clears the request, but a missing
actor or missing actor session lets the request through. -/
def mucPreSetAffiliation (targetIsAdmin isHealthcheck : Bool)
    (affiliation : Option String) (occupantInRoom : Option String)
    (actor : Option String) (fullSessions : String → Option LuaSession) :
    Option String × List LogEntry :=
  if !(affiliation = some "owner") then (affiliation, [])
  else if targetIsAdmin || isHealthcheck then (affiliation, [])
  else
    match occupantInRoom with
    | none =>
      match actor with
      | some a =>
        match fullSessions a with
        | some s =>
          if !(sessionMeetingRole s = some "ADMIN") then
            (none, [.interceptedAff, .blockedAff])
          else (affiliation, [.interceptedAff])
        | none => (affiliation, [.interceptedAff])
      | none => (affiliation, [.interceptedAff])
    | some occJid =>
      match fullSessions occJid with
      | some s =>
        if !(sessionMeetingRole s = some "ADMIN") then
          (none, [.interceptedAff, .blockedAff])
        else (affiliation, [.interceptedAff, .allowedAff])
      | none => (none, [.interceptedAff, .blockedAffNoSession])

/-- The muc-set-role hook (priority -50).  Only moderator requests are
checked; the occupant is part of the event, its full session must resolve
meetingRole ADMIN or the requested role is cleared (`event.role = nil`),
and a missing session also clears it. -/
def mucSetRole (targetIsAdmin isHealthcheck : Bool) (role : Option String)
    (occJid : String) (fullSessions : String → Option LuaSession) :
    Option String × List LogEntry :=
  if !(role = some "moderator") then (role, [])
  else if targetIsAdmin || isHealthcheck then (role, [])
  else
    match fullSessions occJid with
    | some s =>
      if !(sessionMeetingRole s = some "ADMIN") then
        (none, [.interceptedRole, .blockedRole])
      else (role, [.interceptedRole, .allowedRole])
    | none => (none, [.interceptedRole, .blockedRoleNoSession])

/-! ### Concrete inputs used by the closed evaluations below -/

/-- A middleware context with no remote participants and meeting mode off. -/
def ctxPlain : MwContext :=
  { localId := "L", localAudioMuted := false, localIsAdmin := false,
    localIsModerator := false, localApprovedAudio := false,
    localRaisedHandTimestamp := 0, remotes := [], now := 5, hasConference := true }

/-- A meeting-mode state with restricted mode disabled but a stale speaker. -/
def stateOff : MeetingModeState :=
  { enabled := false, timestamp := 0, currentSpeaker := some "R", lastUnmuteTime := 3 }

/-- A meeting-mode state with restricted mode enabled and speaker p. -/
def stateSpeakerP : MeetingModeState :=
  { enabled := true, timestamp := 5, currentSpeaker := some "p", lastUnmuteTime := 9 }

/-- A non-ADMIN moderator context, as the toggle button allows. -/
def ctxNonAdmin : MwContext :=
  { localId := "L", localAudioMuted := true, localIsAdmin := false,
    localIsModerator := true, localApprovedAudio := false,
    localRaisedHandTimestamp := 0, remotes := [], now := 100, hasConference := true }

/-- A muted non-admin local participant with a raised hand, everyone else
muted. -/
def ctxGrant : MwContext :=
  { localId := "L", localAudioMuted := true, localIsAdmin := false,
    localIsModerator := false, localApprovedAudio := false,
    localRaisedHandTimestamp := 7,
    remotes := [⟨"A", true, false, 0, false⟩, ⟨"B", true, true, 3, false⟩],
    now := 50, hasConference := true }

/-- A muted non-admin local participant with no approval and no raised hand,
everyone else muted. -/
def ctxNoGate : MwContext :=
  { localId := "L", localAudioMuted := true, localIsAdmin := false,
    localIsModerator := false, localApprovedAudio := false,
    localRaisedHandTimestamp := 0,
    remotes := [⟨"A", true, false, 0, false⟩], now := 50, hasConference := true }

/-- Restricted mode enabled, the floor free. -/
def stateOn : MeetingModeState :=
  { enabled := true, timestamp := 10, currentSpeaker := none, lastUnmuteTime := 0 }

/-- A context where remote S is the unmuted speaker and remote R, whose
authorization claim is the sentinel (ADMIN), has just unmuted without
approval or raised hand. -/
def ctxRemoteAdmin : MwContext :=
  { localId := "L", localAudioMuted := true, localIsAdmin := false,
    localIsModerator := false, localApprovedAudio := false,
    localRaisedHandTimestamp := 0,
    remotes := [⟨"S", false, true, 2, false⟩, ⟨"R", false, false, 0, true⟩],
    now := 11, hasConference := true }

/-- Restricted mode enabled with remote S holding the floor. -/
def stateSpeakerS : MeetingModeState :=
  { enabled := true, timestamp := 5, currentSpeaker := some "S", lastUnmuteTime := 10 }

/-- A context where remote R is approved with a raised hand and everyone
else is muted, so an observed unmute of R must be granted. -/
def ctxRemoteGrant : MwContext :=
  { localId := "L", localAudioMuted := true, localIsAdmin := false,
    localIsModerator := false, localApprovedAudio := false,
    localRaisedHandTimestamp := 0,
    remotes := [⟨"R", false, true, 4, false⟩], now := 60, hasConference := true }

/-- A plain room configuration, not moderated, not a healthcheck room. -/
def cfgW : RoomCfg :=
  { isHealthcheck := false, moderated := false, roomName := "r", subdomain := none }

/-- A session whose token resolves meetingRole USER. -/
def sessUser : LuaSession :=
  { authToken := some "tok", userContext := some ⟨some "USER"⟩,
    jitsiMeetRoom := none, jitsiMeetDomain := none }

/-- A session whose token resolves meetingRole ADMIN. -/
def sessAdmin : LuaSession :=
  { authToken := some "tok", userContext := some ⟨some "ADMIN"⟩,
    jitsiMeetRoom := none, jitsiMeetDomain := none }

/-- An anonymous session: no token, no user context. -/
def sessNoTok : LuaSession :=
  { authToken := none, userContext := none,
    jitsiMeetRoom := none, jitsiMeetDomain := none }

/-- A room whose affiliation table already grants owner to everyone, the
worst case another module could have produced. -/
def roomAllOwner : RoomState := ⟨fun _ => MucAffiliation.owner⟩

/-- An occupant that another module has already promoted to moderator. -/
def occMod : Occupant :=
  { bareJid := "u@d", nick := "room/u", role := MucRole.moderator,
    isServerAdmin := false, blockModeratorPromotion := false }

/-! ### Theorems -/

/-- Claim C9: when restricted mode is disabled, processing a local
mute-state change or any remote audio-track mute state event is a pure
passthrough: the meeting-mode state is unchanged and no commands are
issued. -/
theorem disabled_mode_passthrough (ctx : MwContext) (s : MeetingModeState)
    (m : Bool) (pid : String) (au loc tm : Bool) (h : s.enabled = false) :
    handleSetAudioMuted ctx s m = (s, [])
      ∧ handleTrackUpdated ctx s pid au loc tm = (s, []) := by
  constructor <;> simp [handleSetAudioMuted, handleTrackUpdated, h]

/-- Witness for C9 at a concrete disabled state. -/
theorem disabled_mode_passthrough_witness :
    stateOff.enabled = false
      ∧ handleSetAudioMuted ctxPlain stateOff false = (stateOff, [])
      ∧ handleTrackUpdated ctxPlain stateOff "R" true false false = (stateOff, []) :=
  ⟨rfl,
   (disabled_mode_passthrough ctxPlain stateOff false "R" true false false rfl).1,
   (disabled_mode_passthrough ctxPlain stateOff false "R" true false false rfl).2⟩

/-- Claim C8: the SET_AUDIO_MUTED mute branch is idempotent: processing a
second mute event for the already-muted local participant leaves the
meeting-mode state (in particular currentSpeaker and lastUnmuteTime)
unchanged and issues no commands. -/
theorem participant_muted_idempotent (ctx : MwContext) (s : MeetingModeState) :
    handleSetAudioMuted ctx (handleSetAudioMuted ctx s true).1 true
      = ((handleSetAudioMuted ctx s true).1, []) := by
  by_cases he : s.enabled
  · by_cases hc : s.currentSpeaker = some ctx.localId
    · simp [handleSetAudioMuted, meetingModeReducer, he, hc]
    · simp [handleSetAudioMuted, he, hc]
  · simp [handleSetAudioMuted, Bool.of_not_eq_true he]

/-- Claim C4, counterexample: a participant-left event for the current
speaker leaves the floor-control state unchanged, so currentSpeakerId
still names the departed participant p. -/
theorem participant_left_keeps_speaker_counterexample :
    (middlewareStep ctxPlain stateSpeakerP (.participantLeft "p")).1.currentSpeaker = some "p"
      ∧ middlewareStep ctxPlain stateSpeakerP (.participantLeft "p")
          = (stateSpeakerP, []) := ⟨rfl, rfl⟩

/-- Claim C4, amended: the meeting-mode middleware and reducer have no case
for a participant-left event: processing it leaves the meeting-mode state
(including currentSpeaker) unchanged and issues no commands. -/
theorem participant_left_noop (ctx : MwContext) (s : MeetingModeState) (id : String) :
    middlewareStep ctx s (.participantLeft id) = (s, []) := rfl

/-- Claim C3, code bug: a TOGGLE_MEETING_MODE request by a non-ADMIN
participant is passed on to the reducer, which flips `enabled` (here from
false to true) and sets the timestamp, although the guard branch only
logged a warning and was plainly meant to block the toggle. -/
theorem non_admin_toggle_flips_state_bug :
    handleToggleMeetingMode ctxNonAdmin initialMeetingModeState none 100
      = ({ enabled := true, timestamp := 100, currentSpeaker := none, lastUnmuteTime := 0 },
         [.warnNonAdminToggle]) := by decide

/-- Claim C5: with restricted mode enabled, when a local non-ADMIN unmute
attempt passes every check (no one else is audibly speaking, which settles
the cooldown and the floor-occupancy checks, and the admission gate holds),
the grant is one step: a mute command for everyone else, currentSpeaker set
to the local participant, lastUnmuteTime refreshed to now, and the
now-speaking notification. -/
theorem local_grant_path (ctx : MwContext) (s : MeetingModeState)
    (hEn : s.enabled = true) (hAdmin : ctx.localIsAdmin = false)
    (hQuiet : isAnyoneElseSpeaking ctx ctx.localId = false)
    (hGate : ctx.localApprovedAudio = true ∨ ctx.localRaisedHandTimestamp > 0) :
    handleSetAudioMuted ctx s false
      = ({ s with currentSpeaker := some ctx.localId, lastUnmuteTime := ctx.now },
         [.muteAllExcept [ctx.localId], .notify "singleSpeakerMode"]) := by
  rcases hGate with hA | hR
  · simp [handleSetAudioMuted, meetingModeReducer, hEn, hAdmin, hQuiet, hA]
  · simp [handleSetAudioMuted, meetingModeReducer, hEn, hAdmin, hQuiet, hR]

/-- Witness for C5 at a concrete raised-hand participant with a free
floor. -/
theorem local_grant_path_witness :
    stateOn.enabled = true ∧ ctxGrant.localIsAdmin = false
      ∧ isAnyoneElseSpeaking ctxGrant ctxGrant.localId = false
      ∧ handleSetAudioMuted ctxGrant stateOn false
        = ({ stateOn with
             currentSpeaker := some ctxGrant.localId
             lastUnmuteTime := ctxGrant.now },
           [.muteAllExcept [ctxGrant.localId], .notify "singleSpeakerMode"]) :=
  ⟨rfl, rfl, by decide,
   local_grant_path ctxGrant stateOn rfl rfl (by decide) (Or.inr (by decide))⟩

/-- Claim C6: with restricted mode enabled and the floor free, a local
non-ADMIN unmute attempt without audio approval and without a raised hand
is rejected: the raise-hand notification is shown, the participant is
forced back to muted, and the meeting-mode state (so currentSpeaker) is
unchanged. -/
theorem local_reject_without_approval_or_hand (ctx : MwContext) (s : MeetingModeState)
    (hEn : s.enabled = true) (hAdmin : ctx.localIsAdmin = false)
    (hQuiet : isAnyoneElseSpeaking ctx ctx.localId = false)
    (hApp : ctx.localApprovedAudio = false) (hHand : ctx.localRaisedHandTimestamp = 0) :
    handleSetAudioMuted ctx s false
      = (s, [.notify "raiseHandToUnmute", .setLocalAudioMuted true]) := by
  simp [handleSetAudioMuted, hEn, hAdmin, hQuiet, hApp, hHand]

/-- Witness for C6 at a concrete participant with neither approval nor a
raised hand. -/
theorem local_reject_without_approval_or_hand_witness :
    stateOn.enabled = true ∧ ctxNoGate.localIsAdmin = false
      ∧ isAnyoneElseSpeaking ctxNoGate ctxNoGate.localId = false
      ∧ ctxNoGate.localApprovedAudio = false ∧ ctxNoGate.localRaisedHandTimestamp = 0
      ∧ handleSetAudioMuted ctxNoGate stateOn false
        = (stateOn, [.notify "raiseHandToUnmute", .setLocalAudioMuted true]) :=
  ⟨rfl, rfl, by decide, rfl, rfl,
   local_reject_without_approval_or_hand ctxNoGate stateOn rfl rfl (by decide) rfl rfl⟩

/-- Claim C2, counterexample: remote participant R carries the sentinel
claim, yet when it unmutes without approval or raised hand while S holds
the floor, the handler mutes R via a remote-mute command and leaves S the
current speaker — R is not exempt and does not displace the speaker. -/
theorem remote_admin_claim_not_exempt_counterexample :
    (findRemote ctxRemoteAdmin "R").map (fun r => r.hasAdminClaim) = some true
      ∧ handleTrackUpdated ctxRemoteAdmin stateSpeakerS "R" true false false
          = (stateSpeakerS, [.muteRemote "R"])
      ∧ stateSpeakerS.currentSpeaker = some "S" := by
  refine ⟨by decide, by decide, rfl⟩

/-- Claim C2, amended: for a remote audio track observed to unmute while
restricted mode is enabled, the handler applies the admission gate, the
cooldown, and the floor-occupancy checks to every remote participant
uniformly — the authorization claim of the remote participant is never
consulted, so sentinel-claim holders are not exempt.  Every rejection mutes
the remote participant via a remote-mute command; the three rejection paths
have the same effect, so the handler rejects exactly when the gate fails or
someone else is audibly speaking, and otherwise grants: mutes everyone
else, sets currentSpeaker to the participant and refreshes
lastUnmuteTime. -/
theorem remote_unmute_handler_characterization (ctx : MwContext) (s : MeetingModeState)
    (pid : String) (r : RemoteParticipant)
    (hEn : s.enabled = true) (hFind : findRemote ctx pid = some r) :
    handleTrackUpdated ctx s pid true false false
      = if (!r.approvedAudio && !(decide (r.raisedHandTimestamp > 0)))
            || isAnyoneElseSpeaking ctx pid
        then (s, [.muteRemote pid])
        else ({ s with currentSpeaker := some pid, lastUnmuteTime := ctx.now },
              [.muteAllExcept [pid], .notify "singleSpeakerMode"]) := by
  by_cases hG : (!r.approvedAudio && !(decide (r.raisedHandTimestamp > 0))) = true
  · simp [handleTrackUpdated, hEn, hFind, hG]
  · by_cases hS : isAnyoneElseSpeaking ctx pid = true
    · by_cases hCd : ctx.now - s.lastUnmuteTime < 2000
      · simp [handleTrackUpdated, hEn, hFind, hG, hS, hCd]
      · cases hc : s.currentSpeaker with
        | none => simp [handleTrackUpdated, hEn, hFind, hG, hS, hCd, hc]
        | some c =>
          by_cases hcp : c = pid
          · simp [handleTrackUpdated, hEn, hFind, hG, hS, hCd, hc, hcp]
          · simp [handleTrackUpdated, hEn, hFind, hG, hS, hCd, hc, hcp]
    · simp [handleTrackUpdated, meetingModeReducer, hEn, hFind, hG,
        Bool.of_not_eq_true hS]

/-- Witness for the amended C2: remote R, approved and with a raised hand,
unmutes while everyone else is muted and is granted the floor. -/
theorem remote_unmute_handler_characterization_witness :
    stateOn.enabled = true
      ∧ findRemote ctxRemoteGrant "R" = some ⟨"R", false, true, 4, false⟩
      ∧ handleTrackUpdated ctxRemoteGrant stateOn "R" true false false
          = if (!(true : Bool) && !(decide ((4 : Nat) > 0)))
                || isAnyoneElseSpeaking ctxRemoteGrant "R"
            then (stateOn, [.muteRemote "R"])
            else ({ stateOn with currentSpeaker := some "R", lastUnmuteTime := 60 },
                  [.muteAllExcept ["R"], .notify "singleSpeakerMode"]) :=
  ⟨rfl, by decide,
   remote_unmute_handler_characterization ctxRemoteGrant stateOn "R"
     ⟨"R", false, true, 4, false⟩ rfl (by decide)⟩

/-- Updating a bare jid in the affiliation table is read back. -/
theorem getAffiliation_setAffiliation_self (r : RoomState) (jid : String)
    (a : MucAffiliation) : getAffiliation (setAffiliation r jid a) jid = a := by
  simp [getAffiliation, setAffiliation]

/-- A non-elevated occupant is neither a moderator nor an owner. -/
theorem not_elevated_spec (room : RoomState) (occ : Occupant)
    (h : isElevated room occ = false) :
    occ.role ≠ MucRole.moderator
      ∧ getAffiliation room occ.bareJid ≠ MucAffiliation.owner := by
  simp [isElevated] at h
  exact h

/-- Demotion yields role participant and affiliation none, at an unchanged
bare jid. -/
theorem demote_spec (room : RoomState) (occ : Occupant) :
    (demote room occ).2.role = MucRole.participant
      ∧ (demote room occ).2.bareJid = occ.bareJid
      ∧ getAffiliation (demote room occ).1 occ.bareJid = MucAffiliation.noAffiliation := by
  refine ⟨rfl, rfl, ?_⟩
  simp [demote, getAffiliation, setAffiliation]

/-- After the muc-occupant-joined hook, a non-admin occupant in an ordinary
room whose session does not resolve meetingRole ADMIN is never elevated,
whatever role or affiliation other modules had applied before the hook
ran. -/
theorem joined_no_elevation_without_claim (cfg : RoomCfg) (session : LuaSession)
    (room : RoomState) (occ : Occupant) (joining : List String)
    (hAdm : occ.isServerAdmin = false) (hHc : cfg.isHealthcheck = false)
    (hMr : sessionMeetingRole session ≠ some "ADMIN") :
    (mucOccupantJoined cfg session room occ joining).occupant.role ≠ MucRole.moderator
      ∧ getAffiliation (mucOccupantJoined cfg session room occ joining).room
          (mucOccupantJoined cfg session room occ joining).occupant.bareJid
        ≠ MucAffiliation.owner := by
  unfold mucOccupantJoined
  rw [if_neg (by simp [hAdm, hHc])]
  split_ifs <;>
    simp_all [demote, isElevated, getAffiliation, setAffiliation] <;>
    split_ifs <;>
    simp_all [demote, isElevated, getAffiliation, setAffiliation]

/-- The broadcast-presence hook only lets an elevated role or affiliation
through when the meetingRole resolved from the occupant session is
ADMIN. -/
theorem broadcast_presence_sanitized (session : Option LuaSession)
    (item : Option PresenceItem) (it : PresenceItem)
    (hres : (mucBroadcastPresence false false session item).1 = some it)
    (hel : it.role = "moderator" ∨ it.affiliation = "owner") :
    session.bind sessionMeetingRole = some "ADMIN" := by
  unfold mucBroadcastPresence at hres
  cases item with
  | none => simp at hres
  | some it0 =>
    by_cases hmr : session.bind sessionMeetingRole = some "ADMIN"
    · exact hmr
    · by_cases h0 : (it0.role = "moderator" || it0.affiliation = "owner") = true
      · simp [h0, hmr] at hres
        rcases hel with h | h <;> rw [← hres] at h <;> simp at h
      · simp [h0] at hres
        simp at h0
        rw [← hres] at hel
        rcases hel with h | h
        · exact absurd h h0.1
        · exact absurd h h0.2

/-- The pre-set-affiliation hook clears an owner request for a non-admin
occupant found in the room whose session does not resolve meetingRole
ADMIN. -/
theorem presetaff_blocks_without_claim (actor : Option String) (occJid : String)
    (fullSessions : String → Option LuaSession) (sess : LuaSession)
    (hs : fullSessions occJid = some sess)
    (hmr : sessionMeetingRole sess ≠ some "ADMIN") :
    (mucPreSetAffiliation false false (some "owner") (some occJid) actor fullSessions).1
      = none := by
  simp [mucPreSetAffiliation, hs, hmr]

/-- The set-role hook clears a moderator request for a non-admin occupant
whose session does not resolve meetingRole ADMIN. -/
theorem setrole_blocks_without_claim (occJid : String)
    (fullSessions : String → Option LuaSession) (sess : LuaSession)
    (hs : fullSessions occJid = some sess)
    (hmr : sessionMeetingRole sess ≠ some "ADMIN") :
    (mucSetRole false false (some "moderator") occJid fullSessions).1 = none := by
  simp [mucSetRole, hs, hmr]

/-- Claim C1: role/affiliation is elevated only under the sentinel claim
(meetingRole ADMIN), at every observable point: (1) after the
muc-occupant-joined hook any unauthorized elevation has been reverted;
(2) a broadcast presence advertises moderator/owner only for an occupant
whose session resolves meetingRole ADMIN; (3) the pre-set-affiliation
interceptor clears an unauthorized owner request for an occupant in the
room; (4) the set-role interceptor clears an unauthorized moderator
request. -/
theorem role_guard_elevation_requires_admin_claim :
    (∀ cfg session room occ joining,
        occ.isServerAdmin = false → cfg.isHealthcheck = false →
        sessionMeetingRole session ≠ some "ADMIN" →
        (mucOccupantJoined cfg session room occ joining).occupant.role ≠ MucRole.moderator
          ∧ getAffiliation (mucOccupantJoined cfg session room occ joining).room
              (mucOccupantJoined cfg session room occ joining).occupant.bareJid
            ≠ MucAffiliation.owner)
    ∧ (∀ session item it,
        (mucBroadcastPresence false false session item).1 = some it →
        it.role = "moderator" ∨ it.affiliation = "owner" →
        session.bind sessionMeetingRole = some "ADMIN")
    ∧ (∀ actor occJid fullSessions sess,
        fullSessions occJid = some sess →
        sessionMeetingRole sess ≠ some "ADMIN" →
        (mucPreSetAffiliation false false (some "owner") (some occJid) actor
            fullSessions).1 = none)
    ∧ (∀ occJid fullSessions sess,
        fullSessions occJid = some sess →
        sessionMeetingRole sess ≠ some "ADMIN" →
        (mucSetRole false false (some "moderator") occJid fullSessions).1 = none) :=
  ⟨joined_no_elevation_without_claim,
   broadcast_presence_sanitized,
   presetaff_blocks_without_claim,
   setrole_blocks_without_claim⟩

/-- Witness for C1 at concrete inputs: an occupant another module promoted
in a room granting owner, a presence item that stays elevated only for an
ADMIN session, and concrete blocked affiliation/role requests. -/
theorem role_guard_elevation_requires_admin_claim_witness :
    ((mucOccupantJoined cfgW sessUser roomAllOwner occMod []).occupant.role
        ≠ MucRole.moderator
      ∧ getAffiliation (mucOccupantJoined cfgW sessUser roomAllOwner occMod []).room
          (mucOccupantJoined cfgW sessUser roomAllOwner occMod []).occupant.bareJid
        ≠ MucAffiliation.owner)
    ∧ (some sessAdmin).bind sessionMeetingRole = some "ADMIN"
    ∧ (mucPreSetAffiliation false false (some "owner") (some "u@d") none
        (fun _ => some sessUser)).1 = none
    ∧ (mucSetRole false false (some "moderator") "u@d"
        (fun _ => some sessUser)).1 = none :=
  ⟨role_guard_elevation_requires_admin_claim.1 cfgW sessUser roomAllOwner occMod []
      rfl rfl (by decide),
   role_guard_elevation_requires_admin_claim.2.1 (some sessAdmin)
      (some ⟨"moderator", "owner"⟩) ⟨"moderator", "owner"⟩ (by decide) (Or.inl rfl),
   role_guard_elevation_requires_admin_claim.2.2.1 none "u@d"
      (fun _ => some sessUser) sessUser rfl (by decide),
   role_guard_elevation_requires_admin_claim.2.2.2 "u@d"
      (fun _ => some sessUser) sessUser rfl (by decide)⟩

/-- Claim C7: a join whose connection context has no token is always
blocked from elevation, regardless of room configuration: the pre-join
hook records a blocked decision log and marks the occupant without touching
the joining list, and at the joined hook — whatever role or room
affiliation other modules applied in between — the occupant ends with a
plain role and no owner affiliation, with a blocked-violation warning
logged whenever an elevation had actually been applied. -/
theorem no_token_join_blocked (cfg : RoomCfg) (session : LuaSession) (occ : Occupant)
    (joining : List String)
    (hAdm : occ.isServerAdmin = false) (hHc : cfg.isHealthcheck = false)
    (hTok : session.authToken = none) (hNotIn : occ.bareJid ∉ joining) :
    (mucOccupantPreJoin cfg session occ joining).occupant.blockModeratorPromotion = true
    ∧ (mucOccupantPreJoin cfg session occ joining).joining = joining
    ∧ (mucOccupantPreJoin cfg session occ joining).logs = [LogEntry.skipNoToken]
    ∧ ∀ room roleAtJoin,
        (mucOccupantJoined cfg session room
            { (mucOccupantPreJoin cfg session occ joining).occupant with role := roleAtJoin }
            (mucOccupantPreJoin cfg session occ joining).joining).occupant.role
          ≠ MucRole.moderator
        ∧ getAffiliation
            (mucOccupantJoined cfg session room
              { (mucOccupantPreJoin cfg session occ joining).occupant with role := roleAtJoin }
              (mucOccupantPreJoin cfg session occ joining).joining).room occ.bareJid
          ≠ MucAffiliation.owner
        ∧ ((roleAtJoin = MucRole.moderator
              ∨ getAffiliation room occ.bareJid = MucAffiliation.owner) →
            LogEntry.blockedJoined ∈
              (mucOccupantJoined cfg session room
                { (mucOccupantPreJoin cfg session occ joining).occupant with role := roleAtJoin }
                (mucOccupantPreJoin cfg session occ joining).joining).logs) := by
  have hpre : mucOccupantPreJoin cfg session occ joining
      = ⟨{ occ with blockModeratorPromotion := true }, joining, [.skipNoToken]⟩ := by
    unfold mucOccupantPreJoin
    rw [if_neg (by simp [hAdm, hHc])]
    simp [hTok]
  refine ⟨by rw [hpre], by rw [hpre], by rw [hpre], ?_⟩
  intro room roleAtJoin
  rw [hpre]
  unfold mucOccupantJoined
  rw [if_neg (by simp [hAdm, hHc])]
  split_ifs <;>
    simp_all [demote, isElevated, getAffiliation, setAffiliation]

/-- Witness for C7: an anonymous join into a room where another module had
already granted owner and moderator. -/
theorem no_token_join_blocked_witness :
    (mucOccupantPreJoin cfgW sessNoTok occMod []).occupant.blockModeratorPromotion = true
    ∧ (mucOccupantPreJoin cfgW sessNoTok occMod []).joining = []
    ∧ (mucOccupantPreJoin cfgW sessNoTok occMod []).logs = [LogEntry.skipNoToken]
    ∧ ((mucOccupantJoined cfgW sessNoTok roomAllOwner
          { (mucOccupantPreJoin cfgW sessNoTok occMod []).occupant with
            role := MucRole.moderator }
          (mucOccupantPreJoin cfgW sessNoTok occMod []).joining).occupant.role
        ≠ MucRole.moderator
      ∧ getAffiliation
          (mucOccupantJoined cfgW sessNoTok roomAllOwner
            { (mucOccupantPreJoin cfgW sessNoTok occMod []).occupant with
              role := MucRole.moderator }
            (mucOccupantPreJoin cfgW sessNoTok occMod []).joining).room occMod.bareJid
        ≠ MucAffiliation.owner
      ∧ ((MucRole.moderator = MucRole.moderator
            ∨ getAffiliation roomAllOwner occMod.bareJid = MucAffiliation.owner) →
          LogEntry.blockedJoined ∈
            (mucOccupantJoined cfgW sessNoTok roomAllOwner
              { (mucOccupantPreJoin cfgW sessNoTok occMod []).occupant with
                role := MucRole.moderator }
              (mucOccupantPreJoin cfgW sessNoTok occMod []).joining).logs)) := by
  have h := no_token_join_blocked cfgW sessNoTok occMod [] rfl rfl rfl (by simp)
  exact ⟨h.1, h.2.1, h.2.2.1, h.2.2.2 roomAllOwner MucRole.moderator⟩

/-- Claim C10, counterexample: an owner-affiliation request for a
non-admin target that is not an occupant of the room, with no actor
session to consult — the target session cannot be resolved, yet the
requested value is left in place instead of being cleared. -/
theorem absent_occupant_no_actor_allows_owner_counterexample :
    (mucPreSetAffiliation false false (some "owner") none none (fun _ => none)).1
      = some "owner" := rfl

/-- Claim C10, amended: when the target occupant is found in the room but
its full session cannot be resolved, the owner-affiliation request is
cleared, and a moderator role request whose occupant session cannot be
resolved is cleared likewise; only the branch for a target absent from the
room with no actor session falls through without blocking. -/
theorem no_session_blocks_elevation (occJid : String) (actor : Option String)
    (fullSessions : String → Option LuaSession)
    (hOcc : fullSessions occJid = none) :
    (mucPreSetAffiliation false false (some "owner") (some occJid) actor fullSessions).1
      = none
    ∧ (mucSetRole false false (some "moderator") occJid fullSessions).1 = none := by
  constructor
  · simp [mucPreSetAffiliation, hOcc]
  · simp [mucSetRole, hOcc]

/-- Witness for the amended C10 at a concrete unresolvable session. -/
theorem no_session_blocks_elevation_witness :
    (fun (_ : String) => (none : Option LuaSession)) "u@d" = none
    ∧ (mucPreSetAffiliation false false (some "owner") (some "u@d") (some "a@d")
        (fun _ => none)).1 = none
    ∧ (mucSetRole false false (some "moderator") "u@d" (fun _ => none)).1 = none := by
  have h := no_session_blocks_elevation "u@d" (some "a@d") (fun _ => none) rfl
  exact ⟨rfl, h.1, h.2⟩

end Jitsi
